import Mathlib

/-!
Verification of the authentication core of the Reflex demo application
(`app/auth/routes.py`, `app/models.py`), as described by its specification.

The development shallowly embeds:
  * the Python string operations the login route uses
    (`str.strip`, `str.lower`, `str.split` with a maxsplit),
  * the two hashing primitives the source combines —
    werkzeug's `generate_password_hash` / `check_password_hash`
    (modelled from `werkzeug/security.py`, 2.3+/3.x) and passlib's
    `bcrypt.hash` / `bcrypt.verify` (used by `User.set_password` /
    `User.check_password` in `app/models.py`),
  * the user lookup, the credential check, and the post-login redirect
    resolution of the `login` view (`app/auth/routes.py`), together with
    CPython's `urllib.parse.urlsplit` (modelled from CPython 3.10.x),
  * the `LoginForm` WTForms validators that gate the credential check.

The raw digest computations (scrypt, pbkdf2, bcrypt) are idealized as an
injective encoding `idealDigest` of (method, salt, password): the model keeps
the exact stored-hash FORMATS and the exact parsing/dispatch logic of the
libraries, and replaces only the cryptographic core, which is what lets
round-trip and mismatch facts be stated.  Functions that can raise in Python
(`check_password_hash` on an unrecognized method, `urlsplit` on unbalanced
brackets) return `Except String _`, with `.error` marking a raised
`ValueError`.
-/

namespace ReflexAuth

/-- Python `str.lower()` restricted to ASCII, which is the domain every
claim exercises (`Char.toLower` lowers exactly the ASCII uppercase range). -/
def pyLower (s : String) : String :=
  String.mk (s.data.map Char.toLower)

/-- ASCII whitespace recognized by Python `str.strip()`. -/
def isPySpace (c : Char) : Bool :=
  c == ' ' || c == '\t' || c == '\n' || c == '\r' || c == '\x0b' || c == '\x0c'

/-- Python `str.strip()` with no arguments: drop leading and trailing
whitespace. -/
def pyStrip (s : String) : String :=
  String.mk (((s.data.dropWhile isPySpace).reverse.dropWhile isPySpace).reverse)

/-- Helper for `pySplitMax`: scan the characters, splitting at `sep` while
split budget remains, accumulating the current field in reverse. -/
def pySplitMaxAux (sep : Char) : List Char → Nat → List Char → List String
  | [], _, acc => [String.mk acc.reverse]
  | c :: cs, fuel, acc =>
    if c = sep then
      match fuel with
      | 0 => [String.mk (acc.reverse ++ c :: cs)]
      | Nat.succ fuel => String.mk acc.reverse :: pySplitMaxAux sep cs fuel []
    else pySplitMaxAux sep cs fuel (c :: acc)

/-- Python `s.split(sep, maxsplit)` for a single-character separator. -/
def pySplitMax (sep : Char) (maxsplit : Nat) (s : String) : List String :=
  pySplitMaxAux sep s.data maxsplit []

/-- Helper for `pySplitAll`. -/
def pySplitAllAux (sep : Char) : List Char → List Char → List String
  | [], acc => [String.mk acc.reverse]
  | c :: cs, acc =>
    if c = sep then String.mk acc.reverse :: pySplitAllAux sep cs []
    else pySplitAllAux sep cs (c :: acc)

/-- Python `s.split(sep)` with no maxsplit, single-character separator. -/
def pySplitAll (sep : Char) (s : String) : List String :=
  pySplitAllAux sep s.data []

/-- Idealized salted digest: an injective encoding of
(method, salt, password) standing in for the scrypt / pbkdf2 / bcrypt
cores.  Faithful to the one property the claims need from a digest: two
computations agree exactly when method, salt and password all agree. -/
def idealDigest (method salt password : String) : String :=
  "dg<" ++ method ++ "|" ++ salt ++ "|" ++ password ++ ">"

/-- werkzeug `security._hash_internal(method, salt, password)`: dispatch on
the method name before the first colon; `plain` returns the password,
`pbkdf2` and `scrypt` compute a salted digest, anything else raises
`ValueError("Invalid hash method ...")`.  (Numeric-argument validation of
the pbkdf2/scrypt parameters is elided; no stored hash in the model carries
malformed numeric arguments.) -/
def hashInternal (method salt password : String) : Except String String :=
  match pySplitAll ':' method with
  | m :: _ =>
    if m = "plain" then Except.ok password
    else if m = "pbkdf2" then Except.ok (idealDigest method salt password)
    else if m = "scrypt" then Except.ok (idealDigest method salt password)
    else Except.error ("Invalid hash method " ++ m)
  | [] => Except.error "Invalid hash method "

/-- werkzeug `generate_password_hash(password)` with the default `scrypt`
method: `f"{actual_method}${salt}${digest}"` where `actual_method` is
`scrypt:32768:8:1`.  The random 16-character salt drawn by `gen_salt` is an
explicit parameter. -/
def generate_password_hash (salt password : String) : String :=
  "scrypt:32768:8:1" ++ "$" ++ salt ++ "$" ++
    idealDigest "scrypt:32768:8:1" salt password

/-- werkzeug `check_password_hash(pwhash, password)`: split the stored hash
on `$` into at most three fields; fewer than three fields is the caught
`ValueError` of tuple unpacking and yields `False`; otherwise recompute the
digest with `_hash_internal` (which raises on an unknown method) and compare
it against the stored digest. -/
def check_password_hash (pwhash password : String) : Except String Bool :=
  match pySplitMax '$' 2 pwhash with
  | [method, salt, hashval] =>
    match hashInternal method salt password with
    | Except.error e => Except.error e
    | Except.ok h => Except.ok (h == hashval)
  | _ => Except.ok false

/-- passlib `bcrypt.hash(password)`: a modular-crypt string
`"$2b$12$" ++ salt ++ digest` (22-character salt drawn by passlib, made an
explicit parameter). -/
def bcrypt_hash (salt password : String) : String :=
  "$2b$12$" ++ salt ++ idealDigest "bcrypt:2b:12" salt password

/-- passlib `bcrypt.verify(password, stored)`: parse the `$2b$12$` prefix,
extract the 22-character salt, recompute the digest and compare. -/
def bcrypt_verify (password stored : String) : Bool :=
  let cs := stored.data
  if cs.take 7 = "$2b$12$".data then
    let salt := String.mk ((cs.drop 7).take 22)
    let digest := String.mk ((cs.drop 7).drop 22)
    digest == idealDigest "bcrypt:2b:12" salt password
  else false

/-- The `User` model of `app/models.py`, restricted to the columns the
authentication core reads. -/
structure User where
  id : Nat
  username : String
  email : Option String
  password_hash : String
  is_admin : Bool
deriving Repr, DecidableEq

/-- `User.set_password` of `app/models.py`: store `bcrypt.hash(password)`
(passlib) in `password_hash`. -/
def User.set_password (u : User) (salt password : String) : User :=
  { u with password_hash := bcrypt_hash salt password }

/-- `User.check_password` of `app/models.py`: `False` on an empty stored
hash, else `bcrypt.verify(password, self.password_hash)`. -/
def User.check_password (u : User) (password : String) : Bool :=
  if u.password_hash = "" then false else bcrypt_verify password u.password_hash

/-- The salt of the module-level werkzeug dummy hash that
`app/auth/routes.py` generates once, when the module loads. -/
def DUMMY_SALT : String := "Yx1uKbfTwqpHGc2z"

/-- `_DUMMY_PASSWORD_HASH = generate_password_hash("dummy-password")` of
`app/auth/routes.py`. -/
def DUMMY_PASSWORD_HASH : String := generate_password_hash DUMMY_SALT "dummy-password"

/-- `_verify_password(stored_hash, candidate)` of `app/auth/routes.py`:
`False` when the stored hash is empty, else werkzeug
`check_password_hash(stored_hash, candidate)` (which can raise). -/
def verify_password (stored_hash candidate : String) : Except String Bool :=
  if stored_hash = "" then Except.ok false
  else check_password_hash stored_hash candidate

/-- Which column the lookup matched, mirroring `match_attr` in the `login`
view. -/
inductive MatchAttr
  | email
  | username
deriving Repr, DecidableEq

/-- The filter `func.lower(User.email) == identifier_input`: `NULL` emails
never match. -/
def emailMatches (input : String) (u : User) : Bool :=
  match u.email with
  | some e => pyLower e == input
  | none => false

/-- The filter `func.lower(User.username) == identifier_input`. -/
def usernameMatches (input : String) (u : User) : Bool :=
  pyLower u.username == input

/-- The two-step lookup of the `login` view: first by lower-cased email,
then, if none matched, by lower-cased username; records which column
matched. -/
def lookupUser (db : List User) (input : String) : Option (User × MatchAttr) :=
  match db.find? (emailMatches input) with
  | some u => some (u, MatchAttr.email)
  | none =>
    match db.find? (usernameMatches input) with
    | some u => some (u, MatchAttr.username)
    | none => none

/-- `identifier_input = form.identifier.data.strip().lower()`. -/
def lookupKey (identifier : String) : String := pyLower (pyStrip identifier)

/-- The functional behavior of `secrets.compare_digest` on strings:
equality.  (Its constant-time execution is a timing property outside a
functional embedding.) -/
def compare_digest (a b : String) : Bool := a == b

/-- `stored_identifier` as computed in the `login` view from `match_attr`:
the lower-cased matched column, or the empty string when nothing matched. -/
def storedIdentifierOf : Option (User × MatchAttr) → String
  | some (u, MatchAttr.email) => pyLower (u.email.getD "")
  | some (u, MatchAttr.username) => pyLower u.username
  | none => ""

/-- `record_hash`: the matched account's `password_hash`, or the
process-wide dummy hash when no account matched. -/
def recordHash (db : List User) (input : String) : String :=
  match lookupUser db input with
  | some (u, _) => u.password_hash
  | none => DUMMY_PASSWORD_HASH

/-- The outcome of the credential check: `Authenticated` with the account
id, or `Rejected` (which carries no detail). -/
inductive AuthResult
  | Authenticated (id : Nat)
  | Rejected
deriving Repr, DecidableEq

/-- The credential-checking core of the `login` view (`app/auth/routes.py`
lines 64-100, after form validation): normalize the identifier, look up the
account, verify the password against the account's hash or the dummy hash,
recompute the constant-time identifier comparison, and decide.  An
`.error` is a `ValueError` raised out of the hash check (HTTP 500). -/
def authenticate (db : List User) (identifier password : String) :
    Except String AuthResult :=
  let identifier_input := lookupKey identifier
  let found := lookupUser db identifier_input
  let password_hash :=
    match found with
    | some (u, _) => u.password_hash
    | none => DUMMY_PASSWORD_HASH
  match verify_password password_hash password with
  | Except.error e => Except.error e
  | Except.ok password_matches =>
    let identifier_matches :=
      found.isSome && compare_digest (storedIdentifierOf found) identifier_input
    match found with
    | some (u, _) =>
      if identifier_matches && password_matches then
        Except.ok (AuthResult.Authenticated u.id)
      else Except.ok AuthResult.Rejected
    | none => Except.ok AuthResult.Rejected

/-- The variant of `authenticate` without the defense-in-depth
`identifier_matches` conjunct, written from the claim's words: the decision
uses only whether an account was found and whether the password matched. -/
def authenticateNoGuard (db : List User) (identifier password : String) :
    Except String AuthResult :=
  let identifier_input := lookupKey identifier
  let found := lookupUser db identifier_input
  let password_hash :=
    match found with
    | some (u, _) => u.password_hash
    | none => DUMMY_PASSWORD_HASH
  match verify_password password_hash password with
  | Except.error e => Except.error e
  | Except.ok password_matches =>
    match found with
    | some (u, _) =>
      if password_matches then Except.ok (AuthResult.Authenticated u.id)
      else Except.ok AuthResult.Rejected
    | none => Except.ok AuthResult.Rejected

/-- Decidable equality for `Except`, so concrete runs of the model can be
checked by `decide`. -/
instance {ε α : Type} [DecidableEq ε] [DecidableEq α] : DecidableEq (Except ε α) := fun
  | Except.error e, Except.error f =>
    if h : e = f then Decidable.isTrue (by rw [h])
    else Decidable.isFalse (fun hc => by cases hc; exact h rfl)
  | Except.error _, Except.ok _ => Decidable.isFalse (fun hc => by cases hc)
  | Except.ok _, Except.error _ => Decidable.isFalse (fun hc => by cases hc)
  | Except.ok a, Except.ok b =>
    if h : a = b then Decidable.isTrue (by rw [h])
    else Decidable.isFalse (fun hc => by cases hc; exact h rfl)

/-- The five components of CPython `urllib.parse.SplitResult`. -/
structure SplitResult where
  scheme : String
  netloc : String
  path : String
  query : String
  fragment : String
deriving Repr, DecidableEq

/-- `urllib.parse.scheme_chars`. -/
def schemeChars : List Char :=
  "abcdefghijklmnopqrstuvwxyzABCDEFGHIJKLMNOPQRSTUVWXYZ0123456789+-.".data

/-- WHATWG C0 control or space: code points up to 0x20. -/
def isC0ControlOrSpace (c : Char) : Bool := c.toNat ≤ 32

/-- `_UNSAFE_URL_BYTES_TO_REMOVE`: tab, carriage return and newline are
deleted anywhere in the URL. -/
def removeUnsafeUrlBytes (cs : List Char) : List Char :=
  cs.filter (fun c => !(c == '\t' || c == '\r' || c == '\n'))

/-- Python `url.split(sep, 1)` on characters, for a separator known to be
present or absent; when absent the whole input is the first component, as
in the `if sep in url` guards of `urlsplit`. -/
def splitOnceAt (sep : Char) : List Char → List Char × List Char
  | [] => ([], [])
  | c :: cs =>
    if c = sep then ([], cs)
    else
      let r := splitOnceAt sep cs
      (c :: r.1, r.2)

/-- The fragment and query splitting at the end of `urlsplit`: the fragment
is everything after the first `#`, the query everything after the first `?`
of what precedes the fragment. -/
def finishSplit (scheme netloc : String) (cs : List Char) : SplitResult :=
  let fsplit := splitOnceAt '#' cs
  let qsplit := splitOnceAt '?' fsplit.1
  { scheme := scheme
    netloc := netloc
    path := String.mk qsplit.1
    query := String.mk qsplit.2
    fragment := String.mk fsplit.2 }

/-- CPython 3.10.x `urllib.parse.urlsplit`: strip leading C0-control/space
characters, delete tab/CR/LF, recognize a scheme (a leading ASCII letter
followed by scheme characters up to the first colon), take the network
location after a leading `//` up to the first of `/`, `?`, `#`, and raise
`ValueError("Invalid IPv6 URL")` when the network location has a square
bracket without its partner. -/
def urlsplit (url : String) : Except String SplitResult :=
  let cs0 := removeUnsafeUrlBytes (url.data.dropWhile isC0ControlOrSpace)
  let schemeSplit :=
    match cs0.findIdx? (fun c => c == ':') with
    | some i =>
      if decide (0 < i) &&
          (match cs0.head? with | some c => c.isAlpha | none => false) &&
          (cs0.take i).all (fun c => schemeChars.contains c) then
        (String.mk ((cs0.take i).map Char.toLower), cs0.drop (i + 1))
      else ("", cs0)
    | none => ("", cs0)
  let scheme := schemeSplit.1
  match schemeSplit.2 with
  | '/' :: '/' :: tail =>
    let delim :=
      match tail.findIdx? (fun c => c == '/' || c == '?' || c == '#') with
      | some j => j
      | none => tail.length
    let netloc := tail.take delim
    let rest := tail.drop delim
    if (netloc.contains '[' && !netloc.contains ']') ||
        (netloc.contains ']' && !netloc.contains '[') then
      Except.error "Invalid IPv6 URL"
    else Except.ok (finishSplit scheme (String.mk netloc) rest)
  | rest => Except.ok (finishSplit scheme "" rest)

/-- `url_for("main.index")`: the root path served by the `main` blueprint. -/
def mainIndexUrl : String := "/"

/-- The post-login redirect resolution of the `login` view:
`next_page = request.args.get("next"); if not next_page or
urlsplit(next_page).netloc: next_page = url_for("main.index")`.  An absent
or empty `next` yields the default, a parsed nonempty network location
yields the default, otherwise the requested value is kept; a `ValueError`
raised by `urlsplit` propagates. -/
def resolve_post_login_target (requested : Option String) (default_target : String) :
    Except String String :=
  match requested with
  | none => Except.ok default_target
  | some s =>
    if s = "" then Except.ok default_target
    else
      match urlsplit s with
      | Except.error e => Except.error e
      | Except.ok r =>
        if r.netloc ≠ "" then Except.ok default_target else Except.ok s

/-- The `LoginForm` validators of `app/auth/routes.py`: `identifier` has
`DataRequired` (nonempty after stripping) and `Length(max=255)`;
`password` has `DataRequired` and `Length(min=8, max=255)`.
`validate_on_submit` runs the view body only when all pass. -/
def validateLoginForm (identifier password : String) : Bool :=
  (!(pyStrip identifier == "")) && decide (identifier.length ≤ 255) &&
  (!(pyStrip password == "")) && decide (8 ≤ password.length) &&
  decide (password.length ≤ 255)

/-- The side effects of one POST to the `login` view: the hash
verifications performed (stored hash and candidate of each call), the ids
passed to `login_user`, the messages flashed, and whether the fixed
`time.sleep(0.5)` of the failure branch ran. -/
structure LoginTrace where
  verifyCalls : List (String × String)
  sessionLogins : List Nat
  flashes : List (String × String)
  slept : Bool
deriving Repr, DecidableEq

/-- The response of one POST to the `login` view: a redirect, or the login
page rendered again. -/
inductive LoginResponse
  | redirectTo (target : String)
  | renderLoginForm
deriving Repr, DecidableEq

/-- `flash("Successfully signed in.", "success")`. -/
def successFlash : String × String := ("Successfully signed in.", "success")

/-- `flash("Invalid email or password.", "danger")`. -/
def invalidFlash : String × String := ("Invalid email or password.", "danger")

/-- One POST request to the `login` view by an unauthenticated client,
instrumented with its side-effect trace: form validation gates the body;
the body looks the account up, performs exactly the one hash verification
the source writes, recomputes the identifier comparison, and either calls
`login_user`, flashes success and redirects to the resolved target, or
sleeps, flashes the generic failure and re-renders.  `.error` propagates a
`ValueError` (HTTP 500). -/
def loginPostT (db : List User) (identifier password : String)
    (nextParam : Option String) : Except String LoginResponse × LoginTrace :=
  if validateLoginForm identifier password then
    let identifier_input := lookupKey identifier
    let found := lookupUser db identifier_input
    let password_hash :=
      match found with
      | some (u, _) => u.password_hash
      | none => DUMMY_PASSWORD_HASH
    match verify_password password_hash password with
    | Except.error e =>
      (Except.error e,
        { verifyCalls := [(password_hash, password)], sessionLogins := [],
          flashes := [], slept := false })
    | Except.ok password_matches =>
      let identifier_matches :=
        found.isSome && compare_digest (storedIdentifierOf found) identifier_input
      match found with
      | some (u, _) =>
        if identifier_matches && password_matches then
          match resolve_post_login_target nextParam mainIndexUrl with
          | Except.error e =>
            (Except.error e,
              { verifyCalls := [(password_hash, password)],
                sessionLogins := [u.id], flashes := [successFlash], slept := false })
          | Except.ok target =>
            (Except.ok (LoginResponse.redirectTo target),
              { verifyCalls := [(password_hash, password)],
                sessionLogins := [u.id], flashes := [successFlash], slept := false })
        else
          (Except.ok LoginResponse.renderLoginForm,
            { verifyCalls := [(password_hash, password)], sessionLogins := [],
              flashes := [invalidFlash], slept := true })
      | none =>
        (Except.ok LoginResponse.renderLoginForm,
          { verifyCalls := [(password_hash, password)], sessionLogins := [],
            flashes := [invalidFlash], slept := true })
  else
    (Except.ok LoginResponse.renderLoginForm,
      { verifyCalls := [], sessionLogins := [], flashes := [], slept := false })

/-- What a client and the session store can observe of one login POST: the
response, the sessions established, the flashed messages, and the
artificial delay. -/
def observables (r : Except String LoginResponse × LoginTrace) :
    Except String LoginResponse × List Nat × List (String × String) × Bool :=
  (r.1, r.2.sessionLogins, r.2.flashes, r.2.slept)

/-- The digest comparison that verifying a candidate against the dummy hash
reduces to. -/
def dummyMatches (p : String) : Bool :=
  idealDigest "scrypt:32768:8:1" DUMMY_SALT p ==
    idealDigest "scrypt:32768:8:1" DUMMY_SALT "dummy-password"

/-- A concrete account whose werkzeug-format hash lets concrete login runs
be evaluated: mixed-case email and username, as in the specification
example `A@Example.com`. -/
def demoUser : User :=
  { id := 7, username := "Admin", email := some "A@Example.com",
    password_hash := generate_password_hash "usersalt" "correct-password",
    is_admin := true }

/-- A blank admin account, before a password is stored. -/
def adminAccount : User :=
  { id := 1, username := "admin", email := some "admin@example.com",
    password_hash := "", is_admin := true }

/-- The admin account as `create_admin.py` (and the `ADMIN_USER` /
`ADMIN_PASSWORD` seeding of `app/__init__.py`) produces it: the password
stored through `User.set_password`, that is, through passlib bcrypt. -/
def seededAdminAccount : User :=
  User.set_password adminAccount "N9qo8uLOickgx2ZMRZoMye" "password123"

/-- Verifying any candidate against the process-wide dummy hash always
returns a boolean (the dummy hash is well-formed werkzeug output), never an
error. -/
theorem verify_dummy (p : String) :
    verify_password DUMMY_PASSWORD_HASH p = Except.ok (dummyMatches p) := rfl

/-- If the lookup matched on the email column, the email filter holds of
the returned account. -/
theorem lookupUser_email_matches {db : List User} {input : String} {u : User}
    (h : lookupUser db input = some (u, MatchAttr.email)) :
    emailMatches input u = true := by
  unfold lookupUser at h
  cases he : db.find? (emailMatches input) with
  | some v =>
    rw [he] at h
    simp only [Option.some.injEq, Prod.mk.injEq] at h
    obtain ⟨h1, -⟩ := h
    subst h1
    exact List.find?_some he
  | none =>
    rw [he] at h
    cases hu : db.find? (usernameMatches input) with
    | some v => rw [hu] at h; simp at h
    | none => rw [hu] at h; simp at h

/-- If the lookup matched on the username column, the username filter holds
of the returned account. -/
theorem lookupUser_username_matches {db : List User} {input : String} {u : User}
    (h : lookupUser db input = some (u, MatchAttr.username)) :
    usernameMatches input u = true := by
  unfold lookupUser at h
  cases he : db.find? (emailMatches input) with
  | some v => rw [he] at h; simp at h
  | none =>
    rw [he] at h
    cases hu : db.find? (usernameMatches input) with
    | some v =>
      rw [hu] at h
      simp only [Option.some.injEq, Prod.mk.injEq] at h
      obtain ⟨h1, -⟩ := h
      subst h1
      exact List.find?_some hu
    | none => rw [hu] at h; simp at h

/-- Whenever the lookup found an account, the stored identifier recomputed
for the matched column equals the queried identifier: the defense-in-depth
comparison compares equal strings. -/
theorem storedIdentifier_of_found {db : List User} {input : String} {u : User}
    {a : MatchAttr} (h : lookupUser db input = some (u, a)) :
    storedIdentifierOf (some (u, a)) = input := by
  cases a with
  | email =>
    have h1 := lookupUser_email_matches h
    unfold emailMatches at h1
    cases he : u.email with
    | none => rw [he] at h1; simp at h1
    | some e =>
      rw [he] at h1
      simp only [beq_iff_eq] at h1
      simp only [storedIdentifierOf, he, Option.getD_some]
      exact h1
  | username =>
    have h1 := lookupUser_username_matches h
    unfold usernameMatches at h1
    simp only [storedIdentifierOf]
    exact eq_of_beq h1

/-- Claim C1: for an account whose correct password was stored through the
hashing primitive `set_password` uses (passlib bcrypt), submitting that
very password does NOT authenticate: werkzeug `check_password_hash` cannot
parse the bcrypt modular-crypt format and raises `ValueError`, so the
login request errors out (HTTP 500) instead of returning
`Authenticated(id)`.  The second conjunct shows the password is indeed the
correct one for the stored hash according to the storage primitive itself
(`User.check_password`, passlib bcrypt verify). -/
theorem authenticate_errors_on_set_password_account :
    authenticate [seededAdminAccount] "admin" "password123" =
        Except.error "Invalid hash method " ∧
      seededAdminAccount.check_password "password123" = true := by
  constructor
  · decide
  · decide

/-- Claim C2: refuted as stated — the claim is right and the code wrong.
An identifier matching no account is indeed rejected (first conjunct), but
an account that matches with a password that fails to verify does NOT
yield `Rejected` when the stored hash is the bcrypt format every seeded
account carries: hash verification raises `ValueError`, so the request
errors out (HTTP 500) instead of producing the generic rejection the
specification requires of every verification failure (second conjunct). -/
theorem authenticate_wrong_password_errors_on_seeded_account :
    authenticate [seededAdminAccount] "ghost" "password123" =
        Except.ok AuthResult.Rejected ∧
      authenticate [seededAdminAccount] "admin" "wrong-password1" =
        Except.error "Invalid hash method " := by
  constructor
  · decide
  · decide

/-- Counterexample to claim C3 as stated: on the requested target `//[`
(an unbalanced bracket in the network location), the resolver neither
returns the default nor the requested value unchanged — `urlsplit` raises
`ValueError("Invalid IPv6 URL")`, which propagates. -/
theorem resolve_post_login_target_raises_on_unbalanced_bracket :
    resolve_post_login_target (some "//[") "/home" =
      Except.error "Invalid IPv6 URL" := by decide

/-- Claim C3 (amended): an absent or empty requested target resolves to the
default; when URL parsing succeeds, a nonempty network location resolves to
the default and an empty one keeps the requested value unchanged; when URL
parsing raises (unbalanced square bracket in the network location), the
error propagates instead of any redirect target. -/
theorem resolve_post_login_target_resolution (req : Option String) (d : String) :
    ((req = none ∨ req = some "") → resolve_post_login_target req d = Except.ok d) ∧
    (∀ s r, req = some s → s ≠ "" → urlsplit s = Except.ok r →
      resolve_post_login_target req d = Except.ok (if r.netloc = "" then s else d)) ∧
    (∀ s e, req = some s → s ≠ "" → urlsplit s = Except.error e →
      resolve_post_login_target req d = Except.error e) := by
  refine ⟨?_, ?_, ?_⟩
  · rintro (rfl | rfl)
    · rfl
    · rfl
  · rintro s r rfl hs hr
    simp only [resolve_post_login_target, if_neg hs, hr]
    by_cases hn : r.netloc = ""
    · rw [if_neg (fun hc => hc hn), if_pos hn]
    · rw [if_pos hn, if_neg hn]
  · rintro s e rfl hs hr
    simp only [resolve_post_login_target, if_neg hs, hr]

/-- Witness for claim C3 (amended) at the specification example: a
cross-origin absolute URL resolves to the default target. -/
theorem resolve_post_login_target_blocks_cross_origin_example :
    resolve_post_login_target (some "https://evil.example/phish") "/home" =
      Except.ok "/home" := by
  have h := (resolve_post_login_target_resolution
      (some "https://evil.example/phish") "/home").2.1 "https://evil.example/phish"
      ⟨"https", "evil.example", "/phish", "", ""⟩ rfl (by decide) (by decide)
  rw [h]
  decide

/-- Counterexample to claim C4 as stated: with an empty identifier the form
validators reject the submission before the view body runs, so NO hash
verification is performed at all (the claim asserts exactly one is always
performed, including for empty identifiers). -/
theorem login_empty_identifier_performs_no_hash_verification :
    (loginPostT [demoUser] "" "password123" none).2.verifyCalls = [] := by decide

/-- Claim C4 (amended): for every submission that passes the `LoginForm`
validators, the view performs exactly one hash verification — on the
matched account's stored hash when the lookup found one, on the
process-wide dummy hash otherwise, and always on the submitted password;
submissions failing validation (empty identifier, or password shorter than
8 characters) perform none. -/
theorem login_validated_performs_exactly_one_hash_verification
    (db : List User) (i p : String) (n : Option String)
    (h : validateLoginForm i p = true) :
    (loginPostT db i p n).2.verifyCalls = [(recordHash db (lookupKey i), p)] := by
  cases hf : lookupUser db (lookupKey i) with
  | none =>
    simp only [recordHash, hf]
    simp [loginPostT, h, hf, verify_dummy]
  | some ua =>
    obtain ⟨u, a⟩ := ua
    simp only [recordHash, hf]
    cases hv : verify_password u.password_hash p with
    | error e => simp [loginPostT, h, hf, hv]
    | ok pm =>
      cases pm with
      | false => simp [loginPostT, h, hf, hv]
      | true =>
        have hs := storedIdentifier_of_found hf
        cases hr : resolve_post_login_target n mainIndexUrl with
        | error e => simp [loginPostT, h, hf, hv, hr, hs, compare_digest]
        | ok t => simp [loginPostT, h, hf, hv, hr, hs, compare_digest]

/-- Witness for claim C4 (amended) at a concrete input: a validated
submission with no matching account performs exactly the one dummy-hash
verification. -/
theorem login_one_hash_verification_example :
    (loginPostT [] "admin" "password123" none).2.verifyCalls =
      [(DUMMY_PASSWORD_HASH, "password123")] := by
  have h := login_validated_performs_exactly_one_hash_verification
      [] "admin" "password123" none (by decide)
  rw [h]
  decide

/-- Claim C5: the hash-verification step does NOT fail closed on every
malformed stored hash — a stored hash in bcrypt modular-crypt format (as
every hash stored by `User.set_password` is) makes werkzeug
`check_password_hash` raise `ValueError("Invalid hash method ...")` for
every candidate password, instead of returning a boolean non-match. -/
theorem verify_password_raises_on_bcrypt_format_hash (candidate : String) :
    verify_password "$2b$12$N9qo8uLOickgx2ZMRZoMye" candidate =
      Except.error "Invalid hash method " := rfl

/-- Claim C6: refuted as stated — on every seeded (bcrypt-hash) account
the two kinds of failed attempt are observably different: an unknown
identifier re-renders the login page with the generic flash after the
fixed delay, while a matching identifier with a wrong password raises
`ValueError` (HTTP 500) with no flash and no delay.  The two observable
outcomes proved here differ in every component, giving exactly the
account-enumeration oracle the specification declares impossible. -/
theorem rejected_attempt_kinds_observably_differ :
    observables (loginPostT [seededAdminAccount] "ghost" "password123" none) =
        (Except.ok LoginResponse.renderLoginForm, [], [invalidFlash], true) ∧
      observables (loginPostT [seededAdminAccount] "admin" "wrong-password1" none) =
        (Except.error "Invalid hash method ", [], [], false) := by
  constructor
  · decide
  · decide

/-- Claim C7: identifier matching is case-insensitive and ignores
surrounding whitespace — if an account's stored email lower-cases to the
trimmed, lower-cased supplied identifier (and it is the account the email
filter singles out), the lookup finds it on the email column; failing any
email match, the same holds for the username column. -/
theorem lookup_case_insensitive_trimmed (db : List User) (u : User) (s : String) :
    ((∃ e, u.email = some e ∧ pyLower e = lookupKey s) → u ∈ db →
      (∀ v ∈ db, emailMatches (lookupKey s) v = true → v = u) →
      lookupUser db (lookupKey s) = some (u, MatchAttr.email)) ∧
    ((∀ v ∈ db, emailMatches (lookupKey s) v = false) →
      pyLower u.username = lookupKey s → u ∈ db →
      (∀ v ∈ db, usernameMatches (lookupKey s) v = true → v = u) →
      lookupUser db (lookupKey s) = some (u, MatchAttr.username)) := by
  constructor
  · rintro ⟨e, he, hlow⟩ hmem huniq
    have hm : emailMatches (lookupKey s) u = true := by
      unfold emailMatches
      rw [he]
      simp [hlow]
    have hsome : (db.find? (emailMatches (lookupKey s))).isSome :=
      List.find?_isSome.mpr ⟨u, hmem, hm⟩
    obtain ⟨v, hv⟩ := Option.isSome_iff_exists.mp hsome
    have hveq : v = u := huniq v (List.mem_of_find?_eq_some hv) (List.find?_some hv)
    unfold lookupUser
    rw [hv, hveq]
  · intro hnone hlow hmem huniq
    have hfe : db.find? (emailMatches (lookupKey s)) = none :=
      List.find?_eq_none.mpr (fun x hx => by simp [hnone x hx])
    have hm : usernameMatches (lookupKey s) u = true := by
      unfold usernameMatches
      rw [hlow]
      simp
    have hsome : (db.find? (usernameMatches (lookupKey s))).isSome :=
      List.find?_isSome.mpr ⟨u, hmem, hm⟩
    obtain ⟨v, hv⟩ := Option.isSome_iff_exists.mp hsome
    have hveq : v = u := huniq v (List.mem_of_find?_eq_some hv) (List.find?_some hv)
    unfold lookupUser
    rw [hfe, hv, hveq]

/-- Witness for claim C7 at the specification example: the account with
email `A@Example.com` is found by the input ` a@example.com ` (whitespace
and case differ). -/
theorem lookup_case_insensitive_trimmed_example :
    lookupUser [demoUser] (lookupKey " a@example.com ") =
      some (demoUser, MatchAttr.email) := by
  apply (lookup_case_insensitive_trimmed [demoUser] demoUser " a@example.com ").1
  · exact ⟨"A@Example.com", rfl, by decide⟩
  · simp
  · intro v hv _
    simpa using hv

/-- Claim C8: `login_user` runs only as a consequence of an authenticated
outcome — whenever the credential check does not produce `Authenticated`,
the login POST establishes no session. -/
theorem login_user_only_on_authenticated (db : List User) (i p : String)
    (n : Option String)
    (h : ∀ uid, authenticate db i p ≠ Except.ok (AuthResult.Authenticated uid)) :
    (loginPostT db i p n).2.sessionLogins = [] := by
  by_cases hval : validateLoginForm i p
  · cases hf : lookupUser db (lookupKey i) with
    | none => simp [loginPostT, hval, hf, verify_dummy]
    | some ua =>
      obtain ⟨u, a⟩ := ua
      cases hv : verify_password u.password_hash p with
      | error e => simp [loginPostT, hval, hf, hv]
      | ok pm =>
        cases pm with
        | false => simp [loginPostT, hval, hf, hv]
        | true =>
          exfalso
          apply h u.id
          have hs := storedIdentifier_of_found hf
          simp [authenticate, hf, hv, hs, compare_digest]
  · simp [loginPostT, hval]

/-- Witness for claim C8 at a concrete input: a rejected attempt
establishes no session. -/
theorem login_user_only_on_authenticated_example :
    (loginPostT [demoUser] "ghost" "password123" none).2.sessionLogins = [] := by
  apply login_user_only_on_authenticated
  intro uid hc
  have hres : authenticate [demoUser] "ghost" "password123" =
      Except.ok AuthResult.Rejected := by decide
  rw [hres] at hc
  simp at hc

/-- Claim C9: the round-trip of the primitives the system actually pairs —
`hash_password` as `User.set_password` stores it (passlib bcrypt) and
`verify_hash` as the login route checks it (werkzeug
`check_password_hash`) — does not hold: for every account, salt, password
and candidate (the correct password included), verification of a
`set_password`-stored hash raises `ValueError` instead of returning true
for the matching password and false otherwise. -/
theorem set_password_hash_never_verifies (u : User) (salt p candidate : String) :
    verify_password ((User.set_password u salt p).password_hash) candidate =
      Except.error "Invalid hash method " := by
  obtain ⟨sd⟩ := salt
  obtain ⟨pd⟩ := p
  rfl

/-- Claim C10: under the lookup contract (built into the embedded lookup:
a match means the lower-cased stored column equals the queried key), the
defense-in-depth identifier comparison is always true when an account is
found, so the credential check is observationally equivalent to the
variant without the `identifier_matches` conjunct: the outcome depends
only on whether an account was found and on the password verification. -/
theorem authenticate_equiv_without_identifier_guard (db : List User) (i p : String) :
    authenticate db i p = authenticateNoGuard db i p := by
  unfold authenticate authenticateNoGuard
  cases hf : lookupUser db (lookupKey i) with
  | none => simp only [hf]
  | some ua =>
    obtain ⟨u, a⟩ := ua
    simp only [hf]
    cases hv : verify_password u.password_hash p with
    | error e => rfl
    | ok pm =>
      have hs : storedIdentifierOf (some (u, a)) = lookupKey i :=
        storedIdentifier_of_found hf
      simp [hs, compare_digest]

end ReflexAuth
